import Mathlib

/-!
Verification of `nbval/cover.py`: the coverage session lifecycle and
data-merge protocol. We shallowly embed the module's data model (the
pytest-cov recorder handle, the test configuration, the kernel handle, a
file-system map for the transient coverage data files) and its operations
(`_make_suffix`, `get_cov`, `setup_coverage`, `teardown_coverage`,
`_merge_nbval_coverage_data`) as pure Lean functions.  Effects (warnings
emitted, remote commands submitted, files read and deleted, recorder
mutation) are made explicit in result records.
-/

namespace NbvalCover

/-- The value of `cov.data_suffix` in coverage.py: `None`, `True`
(auto-generate), or an explicit string. -/
inductive DataSuffix where
  | none
  | auto
  | str (s : String)
deriving DecidableEq, Repr

/-- The value returned by `_make_suffix`: either the auto-generate
sentinel `True` or a concrete string. -/
inductive SuffixV where
  | auto
  | str (s : String)
deriving DecidableEq, Repr

/-- A coverage dataset: a map from measured file names to executed lines.
The internals are opaque to cover.py; this concrete representation only
serves to distinguish datasets. -/
abbrev CovData : Type := List (String × List Nat)

/-- An alias table (`coverage.files.PathAliases`): the ordered list of
(pattern, result) pairs added to it. -/
abbrev Aliases : Type := List (String × String)

/-- `cov.config`: the recorder's configuration, of which cover.py reads
`data_file` and `paths` (the values of the path-alias dict, in order). -/
structure CovConfig where
  data_file : String
  paths : List (List String)
deriving DecidableEq, Repr

/-- `cov.data_files`: cover.py reads its `filename` attribute. -/
structure DataFiles where
  filename : String
deriving DecidableEq, Repr

/-- The pytest-cov recorder handle (`cov`), with the attributes cover.py
reads or writes: `data_suffix`, `config`, `data_files`, the live in-memory
dataset `data`, the `debug` flag, and the `_warn_no_data` flag. -/
structure Cov where
  data_suffix : DataSuffix
  config : CovConfig
  data_files : DataFiles
  data : CovData
  debug : Bool
  _warn_no_data : Bool
deriving DecidableEq, Repr

/-- `plugin.cov_controller`, with its `cov` attribute. -/
structure CovController where
  cov : Cov
deriving DecidableEq, Repr

/-- The `_cov` plugin object: its `cov_controller` may be unset (falsy). -/
structure CovPlugin where
  cov_controller : Option CovController
deriving DecidableEq, Repr

/-- The plugin manager, answering `hasplugin('_cov')` / `getplugin('_cov')`:
`plugin_cov` is `some` exactly when the `_cov` plugin is registered. -/
structure PluginManager where
  plugin_cov : Option CovPlugin
deriving DecidableEq, Repr

/-- `config.option`: the pytest-cov command-line options cover.py reads. -/
structure ConfigOption where
  cov_source : List String
  cov_config : String
deriving DecidableEq, Repr

/-- The pytest configuration object: plugin manager plus options. -/
structure Config where
  pluginmanager : PluginManager
  option : ConfigOption
deriving DecidableEq, Repr

/-- The kernel handle: cover.py reads its `language` attribute. -/
structure Kernel where
  language : String
deriving DecidableEq, Repr

/-- Content of a file on disk: a readable coverage data file, or one whose
read raises `coverage.CoverageException` (corrupt). -/
inductive FileContent where
  | valid (d : CovData)
  | corrupt
deriving DecidableEq, Repr

/-- The file system as a finite map from path to content; a path not in
the map is a missing file. -/
abbrev FS : Type := List (String × FileContent)

/-- Reading a path into a fresh `coverage.CoverageData`: `some` on a valid
file, `none` when the file is missing or its read raises
`coverage.CoverageException`. -/
def fs_read (fs : FS) (p : String) : Option CovData :=
  match List.lookup p fs with
  | some (FileContent.valid d) => some d
  | some FileContent.corrupt => none
  | none => none

/-- `coverage.misc.file_be_gone`: remove the file at path `p`. -/
def fs_delete (fs : FS) (p : String) : FS :=
  List.filter (fun e => !(e.1 == p)) fs

/-- The host environment and the external coverage library operations that
cover.py calls but does not define: `os.path.abspath`, `os.getcwd`, and
`CoverageData.update` (merge another dataset into a dataset, given an
optional alias table). -/
structure Ext where
  abspath : String → String
  getcwd : String
  update : CovData → CovData → Option Aliases → CovData

/-- Python `s.startswith(pre)`, expressed on the character lists so it is
computable by the kernel. -/
def startswith (s pre : String) : Bool :=
  List.isPrefixOf pre.data s.data

/-- Python `s.endswith(suf)`, expressed on the character lists. -/
def endswith (s suf : String) : Bool :=
  List.isSuffixOf suf.data s.data

/-- `os.path.join(a, b)` for the relative second component used here. -/
def os_path_join (a b : String) : String :=
  if a = "" then b
  else if endswith a "/" then a ++ b
  else a ++ "/" ++ b

/-- `get_cov(config)`: the coverage object of pytest-cov, or `None` when
the `_cov` plugin is not registered or has no active controller. -/
def get_cov (config : Config) : Option Cov :=
  match config.pluginmanager.plugin_cov with
  | some plugin =>
    match plugin.cov_controller with
    | some ctrl => some ctrl.cov
    | none => none
  | none => none

/-- `_make_suffix(cov)`: the suffix for the nbval data file. -/
def _make_suffix (cov : Option Cov) : SuffixV :=
  match cov with
  | some c =>
    match c.data_suffix with
    | DataSuffix.auto => SuffixV.auto
    | DataSuffix.str s => SuffixV.str (s ++ ".nbval")
    | DataSuffix.none => SuffixV.str "nbval"
  | none => SuffixV.str "nbval"

/-- A command submitted to the kernel for execution: the `_python_setup`
template instantiated with (data_file, source, config_file, suffix), or the
`_python_teardown` code. -/
inductive RemoteCmd where
  | pySetup (data_file : String) (source : List String)
      (config_file : String) (suffix : SuffixV)
  | pyTeardown
deriving DecidableEq, Repr

/-- Observable outcome of `setup_coverage`: warnings emitted through
`config.warn` as (category, message, location) triples, commands submitted
to the kernel, and the recorder handle afterwards (its `_warn_no_data`
flag may have been cleared). -/
structure SetupResult where
  warnings : List (String × String × String)
  executed : List RemoteCmd
  cov_after : Option Cov
deriving DecidableEq, Repr

/-- `setup_coverage(config, kernel, floc, output_loc)`. -/
def setup_coverage (ext : Ext) (config : Config) (kernel : Kernel)
    (floc : String) (output_loc : Option String) : SetupResult :=
  if startswith kernel.language "python" then
    let cov := get_cov config
    let data_file :=
      match cov with
      | some c => ext.abspath c.config.data_file
      | none =>
        let base :=
          match output_loc with
          | some s => if s = "" then ext.getcwd else s
          | none => ext.getcwd
        ext.abspath (os_path_join base ".coverage")
    let source := config.option.cov_source
    let config_file := config.option.cov_config
    let suffix := _make_suffix cov
    let cov' :=
      if suffix = SuffixV.auto then
        Option.map (fun c => { c with _warn_no_data := false }) cov
      else cov
    { warnings := []
      executed := [RemoteCmd.pySetup data_file source config_file suffix]
      cov_after := cov' }
  else
    { warnings := [("C1",
        "Coverage currently not supported for language \"" ++
          kernel.language ++ "\".", floc)]
      executed := []
      cov_after := get_cov config }

/-- Observable outcome of `_merge_nbval_coverage_data`: the file system
and the recorder handle afterwards, and the paths whose read was
attempted.  `raised` is true when an uncaught Python exception escapes
the call (the `try` only wraps `read_file`, so the `IndexError` from
`result = paths[0]` on an empty alias group propagates); in that case
the other fields are the state at the moment the exception escaped. -/
structure MergeResult where
  fs : FS
  cov : Option Cov
  reads : List String
  raised : Bool := false
deriving DecidableEq, Repr

/-- The alias-table construction inside `_merge_nbval_coverage_data`.
The outer `Option` is the exception channel: the construction yields
`aliases = None` when `cov.config.paths` is empty (falsy), and otherwise
a `PathAliases` to which, for each value list, `(pattern, paths[0])` was
added for every later element `pattern` — except that an empty value
list makes `result = paths[0]` raise an uncaught `IndexError`, modelled
as the outer `none`. -/
def build_aliases (paths : List (List String)) : Option (Option Aliases) :=
  if paths = [] then some none
  else Option.map some
    (List.foldl (fun acc ps =>
      match acc, ps with
      | none, _ => none
      | some _, [] => none
      | some l, result :: patterns =>
          some (l ++ List.map (fun pat => (pat, result)) patterns))
      (some []) paths)

/-- `_merge_nbval_coverage_data(cov)`: merge nbval coverage data into
pytest-cov data. -/
def _merge_nbval_coverage_data (ext : Ext) (cov : Option Cov) (fs : FS) :
    MergeResult :=
  match cov with
  | none => { fs := fs, cov := none, reads := [] }
  | some c =>
    match _make_suffix (some c) with
    | SuffixV.auto => { fs := fs, cov := some c, reads := [] }
    | SuffixV.str suffix =>
      let filename := c.data_files.filename ++ "." ++ suffix
      match fs_read fs (ext.abspath filename) with
      | none => { fs := fs, cov := some c, reads := [ext.abspath filename] }
      | some nbval_data =>
        match build_aliases c.config.paths with
        | none =>
          { fs := fs, cov := some c, reads := [ext.abspath filename]
            raised := true }
        | some aliases =>
          { fs := fs_delete fs filename
            cov := some { c with
              data := ext.update c.data nbval_data aliases }
            reads := [ext.abspath filename] }

/-- Observable outcome of `teardown_coverage`: warnings, commands
submitted to the kernel, the paths whose read the merge attempted, and
the file system and recorder handle afterwards.  `raised` propagates an
uncaught exception escaping the merge step. -/
structure TeardownResult where
  warnings : List (String × String × String)
  executed : List RemoteCmd
  reads : List String
  fs : FS
  cov_after : Option Cov
  raised : Bool := false
deriving DecidableEq, Repr

/-- `teardown_coverage(config, kernel, output_loc)`. -/
def teardown_coverage (ext : Ext) (config : Config) (kernel : Kernel)
    (fs : FS) : TeardownResult :=
  if startswith kernel.language "python" then
    let cov := get_cov config
    let m := _merge_nbval_coverage_data ext cov fs
    { warnings := []
      executed := [RemoteCmd.pyTeardown]
      reads := m.reads
      fs := m.fs
      cov_after := m.cov
      raised := m.raised }
  else
    { warnings := []
      executed := []
      reads := []
      fs := fs
      cov_after := get_cov config }

/-! ## Helper lemmas -/

theorem string_append_assoc (a b c : String) :
    a ++ b ++ c = a ++ (b ++ c) := by
  apply String.ext
  simp

theorem fs_lookup_delete_self (fs : FS) (p : String) :
    List.lookup p (fs_delete fs p) = none := by
  induction fs with
  | nil => rfl
  | cons e t ih =>
    obtain ⟨k, v⟩ := e
    by_cases h : k = p
    · have h1 : fs_delete ((k, v) :: t) p = fs_delete t p := by
        simp [fs_delete, List.filter, h]
      rw [h1]
      exact ih
    · have h1 : fs_delete ((k, v) :: t) p = (k, v) :: fs_delete t p := by
        simp [fs_delete, List.filter, beq_eq_false_iff_ne.mpr h]
      have hpk : (p == k) = false := beq_eq_false_iff_ne.mpr (Ne.symm h)
      rw [h1, List.lookup, hpk]
      exact ih

theorem fs_read_delete_self (fs : FS) (p : String) :
    fs_read (fs_delete fs p) p = none := by
  simp [fs_read, fs_lookup_delete_self]

theorem merge_none (ext : Ext) (fs : FS) :
    _merge_nbval_coverage_data ext none fs =
      { fs := fs, cov := none, reads := [] } := rfl

theorem merge_auto_of_suffix (ext : Ext) (c : Cov) (fs : FS)
    (hs : _make_suffix (some c) = SuffixV.auto) :
    _merge_nbval_coverage_data ext (some c) fs =
      { fs := fs, cov := some c, reads := [] } := by
  unfold _merge_nbval_coverage_data
  simp only [hs]

theorem merge_str_read_none (ext : Ext) (c : Cov) (fs : FS) (s : String)
    (hs : _make_suffix (some c) = SuffixV.str s)
    (hr : fs_read fs (ext.abspath (c.data_files.filename ++ "." ++ s)) = none) :
    _merge_nbval_coverage_data ext (some c) fs =
      { fs := fs, cov := some c
        reads := [ext.abspath (c.data_files.filename ++ "." ++ s)] } := by
  unfold _merge_nbval_coverage_data
  simp only [hs, hr]

theorem merge_str_read_some (ext : Ext) (c : Cov) (fs : FS) (s : String)
    (d : CovData) (al : Option Aliases)
    (hs : _make_suffix (some c) = SuffixV.str s)
    (hr : fs_read fs (ext.abspath (c.data_files.filename ++ "." ++ s)) =
      some d)
    (hal : build_aliases c.config.paths = some al) :
    _merge_nbval_coverage_data ext (some c) fs =
      { fs := fs_delete fs (c.data_files.filename ++ "." ++ s)
        cov := some { c with data := ext.update c.data d al }
        reads := [ext.abspath (c.data_files.filename ++ "." ++ s)] } := by
  unfold _merge_nbval_coverage_data
  simp only [hs, hr, hal]

theorem merge_str_alias_fail (ext : Ext) (c : Cov) (fs : FS) (s : String)
    (d : CovData)
    (hs : _make_suffix (some c) = SuffixV.str s)
    (hr : fs_read fs (ext.abspath (c.data_files.filename ++ "." ++ s)) =
      some d)
    (hal : build_aliases c.config.paths = none) :
    _merge_nbval_coverage_data ext (some c) fs =
      { fs := fs, cov := some c
        reads := [ext.abspath (c.data_files.filename ++ "." ++ s)]
        raised := true } := by
  unfold _merge_nbval_coverage_data
  simp only [hs, hr, hal]

/-! ## Sample concrete values, used by the witnesses -/

/-- A sample host environment: identity `abspath`, a fixed working
directory, and dataset merge by concatenation. -/
def ext0 : Ext :=
  { abspath := fun s => s
    getcwd := "/w"
    update := fun a b _ => a ++ b }

/-- A sample pytest-cov recorder with the given suffix mode. -/
def cov0 (ds : DataSuffix) : Cov :=
  { data_suffix := ds
    config := { data_file := "/w/.coverage", paths := [["/w", "/remote"]] }
    data_files := { filename := "/w/.coverage" }
    data := []
    debug := false
    _warn_no_data := true }

/-- A sample pytest configuration with the given `_cov` plugin state. -/
def config0 (p : Option CovPlugin) : Config :=
  { pluginmanager := { plugin_cov := p }
    option := { cov_source := ["src"], cov_config := ".coveragerc" } }

/-- A sample file system holding one nbval coverage data file. -/
def fs0 : FS :=
  [("/w/.coverage.sfx.nbval", FileContent.valid [("f.py", [1])])]

/-- A sample recorder whose path-alias configuration contains an empty
group, the state at which `result = paths[0]` raises `IndexError`. -/
def cov1 : Cov :=
  { cov0 (DataSuffix.str "sfx") with
    config := { data_file := "/w/.coverage", paths := [[]] } }

/-! ## Claims -/

/-- Claim C1: the Suffix Resolver `_make_suffix` implements a three-way
mapping: if the recorder handle is absent or its suffix mode is `None` it
returns the fixed tag `"nbval"` alone; if the suffix mode is an explicit
string `S` it returns `S` with `".nbval"` appended; if the suffix mode is
the auto-generate sentinel it returns that sentinel unchanged. -/
theorem C1_suffix_three_way :
    _make_suffix none = SuffixV.str "nbval" ∧
    (∀ c : Cov, c.data_suffix = DataSuffix.none →
      _make_suffix (some c) = SuffixV.str "nbval") ∧
    (∀ (c : Cov) (s : String), c.data_suffix = DataSuffix.str s →
      _make_suffix (some c) = SuffixV.str (s ++ ".nbval")) ∧
    (∀ c : Cov, c.data_suffix = DataSuffix.auto →
      _make_suffix (some c) = SuffixV.auto) := by
  refine ⟨rfl, fun c h => ?_, fun c s h => ?_, fun c h => ?_⟩ <;>
    simp [_make_suffix, h]

theorem C1_suffix_three_way_witness :
    _make_suffix (some (cov0 (DataSuffix.str "sfx"))) =
      SuffixV.str ("sfx" ++ ".nbval") :=
  C1_suffix_three_way.2.2.1 (cov0 (DataSuffix.str "sfx")) "sfx" rfl

/-- Claim C2: when the host recorder's suffix mode is the auto-generate
sentinel, setup clears the recorder's `_warn_no_data` flag, and the merge
engine given that recorder returns immediately: it attempts no read,
deletes no file, and leaves the recorder's in-memory dataset unchanged. -/
theorem C2_auto_warn_and_merge_noop (ext : Ext) (config : Config)
    (kernel : Kernel) (floc : String) (oloc : Option String) (fs : FS)
    (c : Cov)
    (hk : startswith kernel.language "python" = true)
    (hc : get_cov config = some c)
    (ha : c.data_suffix = DataSuffix.auto) :
    (setup_coverage ext config kernel floc oloc).cov_after =
      some { c with _warn_no_data := false } ∧
    _merge_nbval_coverage_data ext (some c) fs =
      { fs := fs, cov := some c, reads := [] } := by
  constructor
  · simp [setup_coverage, hk, hc, _make_suffix, ha]
  · exact merge_auto_of_suffix ext c fs (by simp [_make_suffix, ha])

theorem C2_auto_warn_and_merge_noop_witness :
    (setup_coverage ext0
        (config0 (some ⟨some ⟨cov0 DataSuffix.auto⟩⟩))
        ⟨"python3"⟩ "nb.ipynb" none).cov_after =
      some { cov0 DataSuffix.auto with _warn_no_data := false } ∧
    _merge_nbval_coverage_data ext0 (some (cov0 DataSuffix.auto)) fs0 =
      { fs := fs0, cov := some (cov0 DataSuffix.auto), reads := [] } :=
  C2_auto_warn_and_merge_noop ext0
    (config0 (some ⟨some ⟨cov0 DataSuffix.auto⟩⟩)) ⟨"python3"⟩
    "nb.ipynb" none fs0 (cov0 DataSuffix.auto) (by decide) rfl rfl

/-- Claim C3 counterexample: at a recorder with a concrete resolved
suffix (`"sfx.nbval"`) whose path-alias configuration contains an empty
group, and with the remote data file present and readable, the merge
engine reads the file but then raises an uncaught `IndexError` at
`result = paths[0]`: nothing is merged into the in-memory dataset and no
file is deleted, refuting the claim as stated. -/
theorem C3_claim_counterexample :
    _make_suffix (some cov1) = SuffixV.str "sfx.nbval" ∧
    fs_read fs0 (cov1.data_files.filename ++ "." ++ "sfx.nbval") =
      some [("f.py", [1])] ∧
    (_merge_nbval_coverage_data ext0 (some cov1) fs0).raised = true ∧
    (_merge_nbval_coverage_data ext0 (some cov1) fs0).fs = fs0 ∧
    (_merge_nbval_coverage_data ext0 (some cov1) fs0).cov = some cov1 :=
  ⟨rfl, rfl, rfl, rfl, rfl⟩

/-- Claim C3 (amended): for every host recorder whose resolved suffix is
a concrete string and whose alias-table construction succeeds (no empty
alias group), the merge engine reads the remote data at
`<base data-file path>.<suffix>`, merges the read dataset into the
recorder's in-memory dataset applying the constructed alias table, and
deletes the remote data file.  (`hab` states that the path is already in
absolute form, as `setup_coverage` arranges.) -/
theorem C3_merge_reads_merges_deletes (ext : Ext) (c : Cov) (fs : FS)
    (s : String) (d : CovData) (al : Option Aliases)
    (hs : _make_suffix (some c) = SuffixV.str s)
    (hab : ext.abspath (c.data_files.filename ++ "." ++ s) =
      c.data_files.filename ++ "." ++ s)
    (hr : fs_read fs (c.data_files.filename ++ "." ++ s) = some d)
    (hal : build_aliases c.config.paths = some al) :
    _merge_nbval_coverage_data ext (some c) fs =
      { fs := fs_delete fs (c.data_files.filename ++ "." ++ s)
        cov := some { c with data := ext.update c.data d al }
        reads := [c.data_files.filename ++ "." ++ s] } := by
  have h1 := merge_str_read_some ext c fs s d al hs
    (by rw [hab]; exact hr) hal
  rw [h1, hab]

theorem C3_merge_reads_merges_deletes_witness :
    _merge_nbval_coverage_data ext0 (some (cov0 (DataSuffix.str "sfx")))
        fs0 =
      { fs := fs_delete fs0
          ((cov0 (DataSuffix.str "sfx")).data_files.filename ++ "." ++
            "sfx.nbval")
        cov := some { cov0 (DataSuffix.str "sfx") with
          data := ext0.update (cov0 (DataSuffix.str "sfx")).data
            [("f.py", [1])] (some [("/remote", "/w")]) }
        reads := [(cov0 (DataSuffix.str "sfx")).data_files.filename ++
          "." ++ "sfx.nbval"] } :=
  C3_merge_reads_merges_deletes ext0 (cov0 (DataSuffix.str "sfx")) fs0
    "sfx.nbval" [("f.py", [1])] (some [("/remote", "/w")]) (by decide)
    rfl (by decide) (by decide)

/-- Claim C5: for a kernel whose language is not in the Python family,
setup emits exactly the one warning tagged `"C1"` and submits nothing to
the kernel, and teardown submits nothing, warns nothing, attempts no
read, and changes neither the file system nor the recorder. -/
theorem C5_unsupported_language_skip (ext : Ext) (config : Config)
    (kernel : Kernel) (floc : String) (oloc : Option String) (fs : FS)
    (hk : startswith kernel.language "python" = false) :
    (setup_coverage ext config kernel floc oloc).warnings =
      [("C1", "Coverage currently not supported for language \"" ++
        kernel.language ++ "\".", floc)] ∧
    (setup_coverage ext config kernel floc oloc).executed = [] ∧
    teardown_coverage ext config kernel fs =
      { warnings := [], executed := [], reads := [], fs := fs
        cov_after := get_cov config } := by
  refine ⟨?_, ?_, ?_⟩ <;> simp [setup_coverage, teardown_coverage, hk]

theorem C5_unsupported_language_skip_witness :
    (setup_coverage ext0 (config0 none) ⟨"r"⟩ "nb.ipynb" none).warnings =
      [("C1", "Coverage currently not supported for language \"" ++
        "r" ++ "\".", "nb.ipynb")] ∧
    (setup_coverage ext0 (config0 none) ⟨"r"⟩ "nb.ipynb" none).executed =
      [] ∧
    teardown_coverage ext0 (config0 none) ⟨"r"⟩ fs0 =
      { warnings := [], executed := [], reads := [], fs := fs0
        cov_after := get_cov (config0 none) } :=
  C5_unsupported_language_skip ext0 (config0 none) ⟨"r"⟩ "nb.ipynb" none
    fs0 (by decide)

/-- Claim C6: calling the merge engine a second time after a successful
first merge (string suffix, successful read, successful alias-table
construction — so the remote data file was deleted by the first call)
does not raise and leaves both the recorder state and the file system
exactly as the first call left them. -/
theorem C6_merge_idempotent_cleanup (ext : Ext) (c : Cov) (fs : FS)
    (s : String) (d : CovData) (al : Option Aliases)
    (hs : _make_suffix (some c) = SuffixV.str s)
    (hab : ext.abspath (c.data_files.filename ++ "." ++ s) =
      c.data_files.filename ++ "." ++ s)
    (hr : fs_read fs (c.data_files.filename ++ "." ++ s) = some d)
    (hal : build_aliases c.config.paths = some al) :
    (_merge_nbval_coverage_data ext
        (_merge_nbval_coverage_data ext (some c) fs).cov
        (_merge_nbval_coverage_data ext (some c) fs).fs).raised =
      false ∧
    (_merge_nbval_coverage_data ext
        (_merge_nbval_coverage_data ext (some c) fs).cov
        (_merge_nbval_coverage_data ext (some c) fs).fs).cov =
      (_merge_nbval_coverage_data ext (some c) fs).cov ∧
    (_merge_nbval_coverage_data ext
        (_merge_nbval_coverage_data ext (some c) fs).cov
        (_merge_nbval_coverage_data ext (some c) fs).fs).fs =
      (_merge_nbval_coverage_data ext (some c) fs).fs := by
  have h1 : _merge_nbval_coverage_data ext (some c) fs =
      { fs := fs_delete fs (c.data_files.filename ++ "." ++ s)
        cov := some { c with data := ext.update c.data d al }
        reads := [ext.abspath (c.data_files.filename ++ "." ++ s)] } :=
    merge_str_read_some ext c fs s d al hs (by rw [hab]; exact hr) hal
  have hs2 : _make_suffix
      (some { c with data := ext.update c.data d al }) =
      SuffixV.str s := hs
  have hr2 : fs_read (fs_delete fs (c.data_files.filename ++ "." ++ s))
      (ext.abspath (({ c with data := ext.update c.data d al
        : Cov }).data_files.filename ++ "." ++ s)) = none := by
    have he : ({ c with data := ext.update c.data d al
        : Cov }).data_files.filename = c.data_files.filename := rfl
    rw [he, hab]
    exact fs_read_delete_self fs (c.data_files.filename ++ "." ++ s)
  have h2 := merge_str_read_none ext
    { c with data := ext.update c.data d al }
    (fs_delete fs (c.data_files.filename ++ "." ++ s)) s hs2 hr2
  rw [h1]
  simp [h2]

theorem C6_merge_idempotent_cleanup_witness :
    (_merge_nbval_coverage_data ext0
        (_merge_nbval_coverage_data ext0
          (some (cov0 (DataSuffix.str "sfx"))) fs0).cov
        (_merge_nbval_coverage_data ext0
          (some (cov0 (DataSuffix.str "sfx"))) fs0).fs).raised =
      false ∧
    (_merge_nbval_coverage_data ext0
        (_merge_nbval_coverage_data ext0
          (some (cov0 (DataSuffix.str "sfx"))) fs0).cov
        (_merge_nbval_coverage_data ext0
          (some (cov0 (DataSuffix.str "sfx"))) fs0).fs).cov =
      (_merge_nbval_coverage_data ext0
        (some (cov0 (DataSuffix.str "sfx"))) fs0).cov ∧
    (_merge_nbval_coverage_data ext0
        (_merge_nbval_coverage_data ext0
          (some (cov0 (DataSuffix.str "sfx"))) fs0).cov
        (_merge_nbval_coverage_data ext0
          (some (cov0 (DataSuffix.str "sfx"))) fs0).fs).fs =
      (_merge_nbval_coverage_data ext0
        (some (cov0 (DataSuffix.str "sfx"))) fs0).fs :=
  C6_merge_idempotent_cleanup ext0 (cov0 (DataSuffix.str "sfx")) fs0
    "sfx.nbval" [("f.py", [1])] (some [("/remote", "/w")]) (by decide)
    rfl (by decide) (by decide)

/-- Claim C7: the Suffix Resolver is deterministic: two calls on the same
recorder state (including the absent recorder) return the same value, so
the suffix computed independently at setup time and at merge time is
identical. -/
theorem C7_suffix_deterministic (cov₁ cov₂ : Option Cov)
    (h : cov₁ = cov₂) : _make_suffix cov₁ = _make_suffix cov₂ := by
  rw [h]

theorem C7_suffix_deterministic_witness :
    _make_suffix (some (cov0 DataSuffix.none)) =
      _make_suffix (some (cov0 DataSuffix.none)) :=
  C7_suffix_deterministic (some (cov0 DataSuffix.none))
    (some (cov0 DataSuffix.none)) rfl

/-- Claim C8: at setup, for a supported-language kernel, the data-file
path submitted to the kernel is the absolute form of the host recorder's
configured data-file path when a recorder exists; otherwise it is the
absolute path of `.coverage` joined under the given output location, or
under the current working directory when no output location is given. -/
theorem C8_setup_data_file_path (ext : Ext) (config : Config)
    (kernel : Kernel) (floc : String)
    (hk : startswith kernel.language "python" = true) :
    (∀ (c : Cov) (oloc : Option String), get_cov config = some c →
      (setup_coverage ext config kernel floc oloc).executed =
        [RemoteCmd.pySetup (ext.abspath c.config.data_file)
          config.option.cov_source config.option.cov_config
          (_make_suffix (some c))]) ∧
    (get_cov config = none →
      (∀ s : String, s ≠ "" →
        (setup_coverage ext config kernel floc (some s)).executed =
          [RemoteCmd.pySetup (ext.abspath (os_path_join s ".coverage"))
            config.option.cov_source config.option.cov_config
            (SuffixV.str "nbval")]) ∧
      (setup_coverage ext config kernel floc none).executed =
        [RemoteCmd.pySetup
          (ext.abspath (os_path_join ext.getcwd ".coverage"))
          config.option.cov_source config.option.cov_config
          (SuffixV.str "nbval")]) := by
  constructor
  · intro c oloc hc
    simp [setup_coverage, hk, hc]
  · intro hc
    constructor
    · intro s hsne
      simp [setup_coverage, hk, hc, _make_suffix, hsne]
    · simp [setup_coverage, hk, hc, _make_suffix]

theorem C8_setup_data_file_path_witness :
    (setup_coverage ext0 (config0 none) ⟨"python"⟩ "nb.ipynb"
        (some "/out")).executed =
      [RemoteCmd.pySetup (ext0.abspath (os_path_join "/out" ".coverage"))
        (config0 none).option.cov_source (config0 none).option.cov_config
        (SuffixV.str "nbval")] :=
  ((C8_setup_data_file_path ext0 (config0 none) ⟨"python"⟩ "nb.ipynb"
    (by decide)).2 rfl).1 "/out" (by decide)

/-- Claim C9: when the `_cov` plugin is not registered, or is registered
but has no active controller, `get_cov` returns `none` without raising
(it is a total function), and the merge engine invoked with that absent
value returns immediately: no read is attempted, no file is deleted, and
the file system is unchanged. -/
theorem C9_no_host_session_safe (ext : Ext) (config : Config) (fs : FS)
    (h : config.pluginmanager.plugin_cov = none ∨
      ∃ p : CovPlugin, config.pluginmanager.plugin_cov = some p ∧
        p.cov_controller = none) :
    get_cov config = none ∧
    _merge_nbval_coverage_data ext (get_cov config) fs =
      { fs := fs, cov := none, reads := [] } := by
  have hg : get_cov config = none := by
    rcases h with h | ⟨p, hp, hpc⟩
    · simp [get_cov, h]
    · simp [get_cov, hp, hpc]
  exact ⟨hg, by rw [hg]; exact merge_none ext fs⟩

theorem C9_no_host_session_safe_witness :
    get_cov (config0 none) = none ∧
    _merge_nbval_coverage_data ext0 (get_cov (config0 none)) fs0 =
      { fs := fs0, cov := none, reads := [] } :=
  C9_no_host_session_safe ext0 (config0 none) fs0 (Or.inl rfl)

/-- Claim C10: an empty-string suffix is treated as an explicit suffix
rather than an absent one: `_make_suffix` returns `".nbval"`, so the
merge engine looks for the remote data file at `<base>..nbval`, with a
doubled dot. -/
theorem C10_empty_suffix_doubled_dot (ext : Ext) (c : Cov) (fs : FS)
    (h : c.data_suffix = DataSuffix.str "") :
    _make_suffix (some c) = SuffixV.str ".nbval" ∧
    (_merge_nbval_coverage_data ext (some c) fs).reads =
      [ext.abspath (c.data_files.filename ++ "..nbval")] := by
  have hs : _make_suffix (some c) = SuffixV.str ".nbval" := by
    simp [_make_suffix, h]
  have hfn : c.data_files.filename ++ "." ++ ".nbval" =
      c.data_files.filename ++ "..nbval" := by
    rw [string_append_assoc]
    rfl
  refine ⟨hs, ?_⟩
  cases hr : fs_read fs
      (ext.abspath (c.data_files.filename ++ "." ++ ".nbval")) with
  | none =>
    simp [merge_str_read_none ext c fs ".nbval" hs hr, hfn]
  | some d =>
    cases hal : build_aliases c.config.paths with
    | none =>
      simp [merge_str_alias_fail ext c fs ".nbval" d hs hr hal, hfn]
    | some al =>
      simp [merge_str_read_some ext c fs ".nbval" d al hs hr hal, hfn]

theorem C10_empty_suffix_doubled_dot_witness :
    _make_suffix (some (cov0 (DataSuffix.str ""))) =
      SuffixV.str ".nbval" ∧
    (_merge_nbval_coverage_data ext0 (some (cov0 (DataSuffix.str "")))
      fs0).reads =
      [ext0.abspath ((cov0 (DataSuffix.str "")).data_files.filename ++
        "..nbval")] :=
  C10_empty_suffix_doubled_dot ext0 (cov0 (DataSuffix.str "")) fs0 rfl

end NbvalCover
